import Mathlib

/-!
Shallow embedding of the Checkpoint-Mongoose-NodeJS-VS-MongoDB repository:
an Express REST API over a single Mongoose `User` model
(`models/User.js`, `routes/userRoutes.js`).

The MongoDB collection is modelled as a list of stored documents in
insertion order.  Each route handler becomes a pure function from the
incoming request data and the store to an HTTP response paired with the
store after the request.  Mongoose identifier casting (`CastError` with
kind `ObjectId` on a malformed id) is modelled by `isValidObjectId`;
schema validation (`name` required, `age` min 0) by `validateUser` /
`validateStored` / `validateUpdate`.
-/

set_option autoImplicit false

namespace MongooseUsers

/-- A stored `User` document: `_id` plus the schema fields of
`userSchema` (`name : String` required, `age : Number` with `min: 0`
optional, `favoriteFoods : [String]`). -/
structure StoredUser where
  id : String
  name : String
  age : Option Int
  favoriteFoods : List String
  deriving DecidableEq, Repr

/-- A document as returned by `search-burritos`, i.e. after the
projection `select('-age -__v')`: the `age` field is absent. -/
structure UserView where
  id : String
  name : String
  favoriteFoods : List String
  deriving DecidableEq, Repr

/-- A request body for the create routes.  `name` may be absent
(`Option`); an absent `favoriteFoods` is cast by Mongoose to the empty
array, so the field is a plain list. -/
structure UserInput where
  name : Option String
  age : Option Int
  favoriteFoods : List String
  deriving DecidableEq, Repr

/-- A partial request body for `PUT /users/:id`: each field is present
in the update document or absent. -/
structure UserUpdate where
  name : Option String
  age : Option Int
  favoriteFoods : Option (List String)
  deriving DecidableEq, Repr

/-- JSON response bodies produced by the route handlers. -/
inductive Body where
  /-- an array of full documents -/
  | users : List StoredUser → Body
  /-- a single full document -/
  | user : StoredUser → Body
  /-- a body of shape message-only -/
  | msg : String → Body
  /-- a body of shape message plus deleted record -/
  | msgUser : String → StoredUser → Body
  /-- a body of shape message plus deleted count -/
  | msgCount : String → Nat → Body
  /-- an array of projected documents (no `age`) -/
  | projUsers : List UserView → Body
  deriving DecidableEq, Repr

/-- An HTTP response: status code and JSON body. -/
structure Resp where
  status : Nat
  body : Body
  deriving DecidableEq, Repr

/-- The persistent collection of users, in insertion order. -/
abbrev Store := List StoredUser

/-- Hexadecimal digit, as accepted by the ObjectId cast. -/
def isHexChar (c : Char) : Bool :=
  c.isDigit || ('a' ≤ c && c ≤ 'f') || ('A' ≤ c && c ≤ 'F')

/-- Mongoose casts a string to an `ObjectId` when it is a 24-character
hex string or a 12-character (12-byte) string; anything else raises a
`CastError` with kind `ObjectId`. -/
def isValidObjectId (s : String) : Bool :=
  (s.length == 24 && s.toList.all isHexChar) || s.length == 12

/-- Document validation run by `save()` on a new document built from a
request body: `name` is required (absent or empty string fails) and
`age`, when present, must be at least the declared minimum 0. -/
def validateUser (b : UserInput) : Except String Unit :=
  match b.name with
  | none => Except.error "User validation failed: name: Path name is required."
  | some n =>
    if n = "" then
      Except.error "User validation failed: name: Path name is required."
    else
      match b.age with
      | some a =>
        if a < 0 then
          Except.error "User validation failed: age: Path age is less than minimum allowed value (0)."
        else Except.ok ()
      | none => Except.ok ()

/-- Document validation run by `save()` on an already stored document:
same schema rules as `validateUser`. -/
def validateStored (u : StoredUser) : Except String Unit :=
  if u.name = "" then
    Except.error "User validation failed: name: Path name is required."
  else
    match u.age with
    | some a =>
      if a < 0 then
        Except.error "User validation failed: age: Path age is less than minimum allowed value (0)."
      else Except.ok ()
    | none => Except.ok ()

/-- Update validators (`runValidators: true`): only the paths present in
the update document are validated, so an absent `name` is fine but a
`name` set to the empty string fails `required`, and a present negative
`age` fails `min: 0`. -/
def validateUpdate (upd : UserUpdate) : Except String Unit :=
  match upd.name with
  | some n =>
    if n = "" then
      Except.error "Validation failed: name: Path name is required."
    else
      match upd.age with
      | some a =>
        if a < 0 then
          Except.error "Validation failed: age: Path age is less than minimum allowed value (0)."
        else Except.ok ()
      | none => Except.ok ()
  | none =>
    match upd.age with
    | some a =>
      if a < 0 then
        Except.error "Validation failed: age: Path age is less than minimum allowed value (0)."
      else Except.ok ()
    | none => Except.ok ()

/-- The stored document built from a validated request body and the
ObjectId generated for it (`new User(req.body)`). -/
def mkStored (newId : String) (b : UserInput) : StoredUser :=
  ⟨newId, b.name.getD "", b.age, b.favoriteFoods⟩

/-- The `findByIdAndUpdate` field replacement: paths present in the update
document overwrite the stored ones. -/
def applyUpdate (u : StoredUser) (upd : UserUpdate) : StoredUser :=
  { u with
    name := upd.name.getD u.name
    age := match upd.age with | some a => some a | none => u.age
    favoriteFoods := upd.favoriteFoods.getD u.favoriteFoods }

/-- Route 1, `GET /users/`: `User.find()` and 200 with every record. -/
def getAllUsers (db : Store) : Resp × Store :=
  (⟨200, Body.users db⟩, db)

/-- Route 2, `POST /users/`: `new User(req.body)` then `save()`; 201
with the saved record, or 400 with the validation message. -/
def createUser (newId : String) (body : UserInput) (db : Store) : Resp × Store :=
  match validateUser body with
  | Except.error m => (⟨400, Body.msg m⟩, db)
  | Except.ok _ =>
    let savedUser := mkStored newId body
    (⟨201, Body.user savedUser⟩, db ++ [savedUser])

/-- Route 3, `PUT /users/:id`: `findByIdAndUpdate(id, body,
{ new: true, runValidators: true })`.  A malformed id raises `CastError`
kind `ObjectId`, caught as 400; a validator failure raises
`ValidationError`, which the handler's catch does NOT special-case, so
it falls through to 500 with the generic message; otherwise 404 when no
document matches, else 200 with the updated document. -/
def updateUser (id : String) (upd : UserUpdate) (db : Store) : Resp × Store :=
  if isValidObjectId id then
    match validateUpdate upd with
    | Except.error _ => (⟨500, Body.msg "Server error"⟩, db)
    | Except.ok _ =>
      match db.find? (fun u => u.id == id) with
      | none => (⟨404, Body.msg "User not found"⟩, db)
      | some u =>
        let updatedUser := applyUpdate u upd
        (⟨200, Body.user updatedUser⟩,
         db.map (fun v => if v.id == id then updatedUser else v))
  else (⟨400, Body.msg "Invalid User ID format"⟩, db)

/-- Route 4, `DELETE /users/:id`: `findByIdAndDelete(id)`; 400 on a
malformed id, 404 when no document matches, else 200 with
`{ message, deletedUser }`. -/
def deleteUser (id : String) (db : Store) : Resp × Store :=
  if isValidObjectId id then
    match db.find? (fun u => u.id == id) with
    | none => (⟨404, Body.msg "User not found"⟩, db)
    | some deletedUser =>
      (⟨200, Body.msgUser "User deleted successfully" deletedUser⟩,
       db.eraseP (fun v => v.id == id))
  else (⟨400, Body.msg "Invalid User ID format"⟩, db)

/-- Route 5, `POST /users/create-one`: same logic as `POST /users/`. -/
def createOne (newId : String) (body : UserInput) (db : Store) : Resp × Store :=
  match validateUser body with
  | Except.error m => (⟨400, Body.msg m⟩, db)
  | Except.ok _ =>
    let savedPerson := mkStored newId body
    (⟨201, Body.user savedPerson⟩, db ++ [savedPerson])

/-- First validation error among the elements of a bulk-create body. -/
def firstError : List UserInput → Option String
  | [] => none
  | b :: bs =>
    match validateUser b with
    | Except.error m => some m
    | Except.ok _ => firstError bs

/-- Whether a single bulk-create element passes validation. -/
def isValidInput (b : UserInput) : Bool :=
  match validateUser b with
  | Except.ok _ => true
  | Except.error _ => false

/-- Route 6, `POST /users/create-many`: rejects a non-array body
(modelled as `none`) or an empty array with 400 before touching the
database; otherwise `User.create(arrayOfPeople)` saves each element,
201 with the created array when all validate, else 400 with the first
validation message (the elements that do validate are still saved,
since `create` issues independent saves). -/
def createMany (body : Option (List UserInput)) (newIds : List String)
    (db : Store) : Resp × Store :=
  match body with
  | none =>
    (⟨400, Body.msg "Request body must be a non-empty array of user objects."⟩, db)
  | some arrayOfPeople =>
    if arrayOfPeople.isEmpty then
      (⟨400, Body.msg "Request body must be a non-empty array of user objects."⟩, db)
    else
      let pairs := arrayOfPeople.zip newIds
      match firstError arrayOfPeople with
      | some m =>
        let saved := (pairs.filter (fun bi => isValidInput bi.1)).map
          (fun bi => mkStored bi.2 bi.1)
        (⟨400, Body.msg m⟩, db ++ saved)
      | none =>
        let createdPeople := pairs.map (fun bi => mkStored bi.2 bi.1)
        (⟨201, Body.users createdPeople⟩, db ++ createdPeople)

/-- Route 7, `GET /users/find-by-name/:name`: `User.find({ name })`,
always 200 with the (possibly empty) array. -/
def findByName (name : String) (db : Store) : Resp × Store :=
  (⟨200, Body.users (db.filter (fun u => u.name == name))⟩, db)

/-- Route 8, `GET /users/find-one-food/:food`:
`User.findOne({ favoriteFoods: food })`; 404 when none matches, else
200 with the first match. -/
def findOneFood (food : String) (db : Store) : Resp × Store :=
  match db.find? (fun u => u.favoriteFoods.contains food) with
  | none => (⟨404, Body.msg ("No person found with favorite food: " ++ food)⟩, db)
  | some person => (⟨200, Body.user person⟩, db)

/-- Route 9, `GET /users/find-by-id/:id`: `User.findById(id)`; 400 on a
malformed id, 404 when no document matches, else 200 with it. -/
def findById (id : String) (db : Store) : Resp × Store :=
  if isValidObjectId id then
    match db.find? (fun u => u.id == id) with
    | none => (⟨404, Body.msg "User not found"⟩, db)
    | some person => (⟨200, Body.user person⟩, db)
  else (⟨400, Body.msg "Invalid User ID format"⟩, db)

/-- Route 10, `PUT /users/classic-update/:id`: `findById`, push the
literal `"hamburger"` onto `favoriteFoods` unless already included,
then `save()` (which re-runs document validation; a failure there is
not a `CastError`, so it maps to 500). -/
def classicUpdate (id : String) (db : Store) : Resp × Store :=
  if isValidObjectId id then
    match db.find? (fun u => u.id == id) with
    | none => (⟨404, Body.msg "User not found for classic update"⟩, db)
    | some person =>
      let updatedPerson :=
        if person.favoriteFoods.contains "hamburger" then person
        else { person with favoriteFoods := person.favoriteFoods ++ ["hamburger"] }
      match validateStored updatedPerson with
      | Except.error _ => (⟨500, Body.msg "Server error"⟩, db)
      | Except.ok _ =>
        (⟨200, Body.user updatedPerson⟩,
         db.map (fun v => if v.id == id then updatedPerson else v))
  else (⟨400, Body.msg "Invalid User ID format"⟩, db)

/-- Route 12, `DELETE /users/find-by-id-and-remove/:id`:
`findByIdAndRemove(id)`; 400 on a malformed id, 404 when no document
matches, else 200 with `{ message, removedPerson }`. -/
def findByIdAndRemove (id : String) (db : Store) : Resp × Store :=
  if isValidObjectId id then
    match db.find? (fun u => u.id == id) with
    | none => (⟨404, Body.msg "User not found for removal"⟩, db)
    | some removedPerson =>
      (⟨200, Body.msgUser "User successfully removed" removedPerson⟩,
       db.eraseP (fun v => v.id == id))
  else (⟨400, Body.msg "Invalid User ID format"⟩, db)

/-- Route 13, `DELETE /users/delete-many-by-name/:name`:
`deleteMany({ name })` then 404 when `deletedCount` is 0, else 200 with
the count in the message and body. -/
def deleteManyByName (name : String) (db : Store) : Resp × Store :=
  let deletedCount := db.countP (fun u => u.name == name)
  let db' := db.filter (fun u => !(u.name == name))
  if deletedCount = 0 then
    (⟨404, Body.msg ("No users found with name: " ++ name ++ " to delete.")⟩, db')
  else
    (⟨200,
      Body.msgCount
        (toString deletedCount ++ " user(s) with name \"" ++ name ++ "\" successfully removed.")
        deletedCount⟩,
     db')

/-- The `select('-age -__v')` projection applied per document. -/
def dropAge (u : StoredUser) : UserView :=
  ⟨u.id, u.name, u.favoriteFoods⟩

/-- Insertion step of the name sort. -/
def insertByName (u : StoredUser) : List StoredUser → List StoredUser
  | [] => [u]
  | v :: vs => if u.name ≤ v.name then u :: v :: vs else v :: insertByName u vs

/-- The `sort({ name: 1 })` step: ascending stable sort on `name`. -/
def sortByName : List StoredUser → List StoredUser
  | [] => []
  | u :: us => insertByName u (sortByName us)

/-- Route 14, `GET /users/search-burritos`:
`find({ favoriteFoods: "burritos" }).sort({ name: 1 }).limit(2).select('-age -__v')`. -/
def searchBurritos (db : Store) : Resp × Store :=
  (⟨200,
    Body.projUsers
      (((sortByName (db.filter (fun u => u.favoriteFoods.contains "burritos"))).take 2).map
        dropAge)⟩,
   db)

/-! ### Helper lemmas -/

/-- A `find?` over an appended fresh singleton hits the singleton. -/
theorem find?_append_singleton {p : StoredUser → Bool} {l : List StoredUser}
    {x : StoredUser} (h : ∀ u ∈ l, p u = false) (hx : p x = true) :
    (l ++ [x]).find? p = some x := by
  induction l with
  | nil => simp [List.find?, hx]
  | cons u us ih =>
    have hu : p u = false := h u (List.mem_cons_self u us)
    simp only [List.cons_append, List.find?_cons, hu]
    exact ih (fun v hv => h v (List.mem_cons_of_mem u hv))

/-- After erasing the (unique, by `Nodup` of ids) document with a given
id, no document with that id remains. -/
theorem find?_eraseP_id (db : Store) (id : String)
    (hnd : (db.map StoredUser.id).Nodup) :
    (db.eraseP (fun v => v.id == id)).find? (fun v => v.id == id) = none := by
  induction db with
  | nil => rfl
  | cons u us ih =>
    simp only [List.map_cons, List.nodup_cons] at hnd
    by_cases hu : (u.id == id) = true
    · have herase : List.eraseP (fun v => v.id == id) (u :: us) = us :=
        List.eraseP_cons_of_pos hu
      rw [herase, List.find?_eq_none]
      intro v hv hpv
      have : v.id = u.id := by
        rw [beq_iff_eq] at hu
        simp only [beq_iff_eq] at hpv
        rw [hpv, hu]
      exact hnd.1 (this ▸ List.mem_map_of_mem StoredUser.id hv)
    · have herase : List.eraseP (fun v => v.id == id) (u :: us) =
          u :: List.eraseP (fun v => v.id == id) us :=
        List.eraseP_cons_of_neg hu
      rw [herase]
      simp only [List.find?_cons, Bool.of_not_eq_true hu]
      exact ih hnd.2

/-- With `Nodup` ids, the element returned by `find?` on an id is the
only one with that id, so replacing it by itself is the identity. -/
theorem map_replace_self (db : Store) (id : String) (person : StoredUser)
    (hnd : (db.map StoredUser.id).Nodup)
    (hfind : db.find? (fun u => u.id == id) = some person) :
    db.map (fun v => if v.id == id then person else v) = db := by
  have hmem : person ∈ db := List.mem_of_find?_eq_some hfind
  have hpid := List.find?_some hfind
  simp only [beq_iff_eq] at hpid
  have hfix : ∀ v ∈ db, (fun v => if v.id == id then person else v) v = v := by
    intro v hv
    by_cases hvid : (v.id == id) = true
    · rw [beq_iff_eq] at hvid
      have : v = person :=
        List.inj_on_of_nodup_map hnd hv hmem (by rw [hvid, hpid])
      simp [this]
    · simp only
      rw [if_neg hvid]
  rw [List.map_congr_left hfix]
  simp

/-! ### Claims -/

/-- Claim C1: with stored records A (foods `["burritos"]`, name `"Zeta"`),
B (foods `["burritos"]`, name `"Alpha"`) and C (foods `["tacos"]`),
`GET /users/search-burritos` returns 200 with `[B, A]` — the records
whose `favoriteFoods` contain `"burritos"`, sorted by name ascending,
limited to 2, with the `age` field absent from every returned record. -/
theorem searchBurritos_scenario (idA idB idC : String) (aA aB aC : Option Int)
    (nC : String) :
    searchBurritos
      [⟨idA, "Zeta", aA, ["burritos"]⟩, ⟨idB, "Alpha", aB, ["burritos"]⟩,
       ⟨idC, nC, aC, ["tacos"]⟩] =
    (⟨200, Body.projUsers
        [⟨idB, "Alpha", ["burritos"]⟩, ⟨idA, "Zeta", ["burritos"]⟩]⟩,
     [⟨idA, "Zeta", aA, ["burritos"]⟩, ⟨idB, "Alpha", aB, ["burritos"]⟩,
      ⟨idC, nC, aC, ["tacos"]⟩]) := by
  have hZA : ¬ (("Zeta" : String) ≤ "Alpha") := by
    simp
    decide
  simp [searchBurritos, sortByName, insertByName, dropAge, List.filter_cons, hZA]

/-- Claim C2: a record successfully created by `POST /users/` (201) is
returned by `GET /users/find-by-id/:id` at the identifier assigned at
creation, equal in all submitted fields (`name`, `age`,
`favoriteFoods`) to the request body, plus that identifier.  The
generated ObjectId is well-formed and fresh. -/
theorem create_then_findById (newId : String) (body : UserInput) (db : Store)
    (hid : isValidObjectId newId = true)
    (hfresh : ∀ u ∈ db, u.id ≠ newId)
    (hok : validateUser body = Except.ok ()) :
    ∃ u : StoredUser,
      createUser newId body db = (⟨201, Body.user u⟩, db ++ [u]) ∧
      u.id = newId ∧ body.name = some u.name ∧ u.age = body.age ∧
      u.favoriteFoods = body.favoriteFoods ∧
      (findById newId (createUser newId body db).2).1 = ⟨200, Body.user u⟩ := by
  refine ⟨mkStored newId body, ?_, rfl, ?_, rfl, rfl, ?_⟩
  · simp [createUser, hok]
  · cases hbn : body.name with
    | none => simp [validateUser, hbn] at hok
    | some n => simp [mkStored, hbn]
  · have hstore : (createUser newId body db).2 = db ++ [mkStored newId body] := by
      simp [createUser, hok]
    rw [hstore]
    have hfind : (db ++ [mkStored newId body]).find? (fun v => v.id == newId) =
        some (mkStored newId body) := by
      apply find?_append_singleton
      · intro u hu
        simp only [beq_eq_false_iff_ne, ne_eq]
        exact hfresh u hu
      · simp [mkStored]
    simp [findById, hid, hfind]

/-- Witness for C2: create John then fetch him by the assigned id. -/
theorem create_then_findById_witness :
    ∃ u : StoredUser,
      createUser "0123456789abcdef01234567" ⟨some "John", some 30, ["Pizza"]⟩ [] =
        (⟨201, Body.user u⟩, [] ++ [u]) ∧
      u.id = "0123456789abcdef01234567" ∧
      (some "John" : Option String) = some u.name ∧ u.age = some 30 ∧
      u.favoriteFoods = ["Pizza"] ∧
      (findById "0123456789abcdef01234567"
        (createUser "0123456789abcdef01234567"
          ⟨some "John", some 30, ["Pizza"]⟩ []).2).1 = ⟨200, Body.user u⟩ :=
  create_then_findById "0123456789abcdef01234567"
    ⟨some "John", some 30, ["Pizza"]⟩ [] (by decide)
    (by intro u hu; exact absurd hu (List.not_mem_nil u)) rfl

/-- Claim C3: after a successful `DELETE /users/:id` (status 200),
fetching the same identifier with `GET /users/find-by-id/:id` answers
the not-found outcome 404 (ids are unique in the store). -/
theorem delete_then_findById (id : String) (db : Store)
    (hnd : (db.map StoredUser.id).Nodup)
    (h200 : (deleteUser id db).1.status = 200) :
    (findById id (deleteUser id db).2).1 = ⟨404, Body.msg "User not found"⟩ := by
  by_cases hid : isValidObjectId id = true
  · cases hfind : db.find? (fun u => u.id == id) with
    | none => simp [deleteUser, hid, hfind] at h200
    | some u =>
      have hstore : (deleteUser id db).2 = db.eraseP (fun v => v.id == id) := by
        simp [deleteUser, hid, hfind]
      rw [hstore]
      simp [findById, hid, find?_eraseP_id db id hnd]
  · have hid' : isValidObjectId id = false := Bool.of_not_eq_true hid
    simp [deleteUser, hid'] at h200

/-- Witness for C3: delete Mary then fail to find her. -/
theorem delete_then_findById_witness :
    (findById "0123456789ab"
      (deleteUser "0123456789ab" [⟨"0123456789ab", "Mary", some 30, []⟩]).2).1 =
      ⟨404, Body.msg "User not found"⟩ :=
  delete_then_findById "0123456789ab" [⟨"0123456789ab", "Mary", some 30, []⟩]
    (by decide) (by decide)

/-- Claim C4: `PUT /users/classic-update/:id` fetches by id, appends the
literal `"hamburger"` to `favoriteFoods` only when absent, persists and
answers 200 with the record; when `"hamburger"` is already present the
foods list (and the whole store) is unchanged; a non-existent id gives
404. -/
theorem classicUpdate_spec (id : String) (db : Store)
    (hid : isValidObjectId id = true)
    (hnd : (db.map StoredUser.id).Nodup) :
    (db.find? (fun u => u.id == id) = none →
      classicUpdate id db =
        (⟨404, Body.msg "User not found for classic update"⟩, db)) ∧
    (∀ person, db.find? (fun u => u.id == id) = some person →
      validateStored person = Except.ok () →
      person.favoriteFoods.contains "hamburger" = true →
      classicUpdate id db = (⟨200, Body.user person⟩, db)) ∧
    (∀ person, db.find? (fun u => u.id == id) = some person →
      validateStored person = Except.ok () →
      person.favoriteFoods.contains "hamburger" = false →
      classicUpdate id db =
        (⟨200, Body.user
           { person with favoriteFoods := person.favoriteFoods ++ ["hamburger"] }⟩,
         db.map (fun v => if v.id == id then
           { person with favoriteFoods := person.favoriteFoods ++ ["hamburger"] }
           else v))) := by
  refine ⟨?_, ?_, ?_⟩
  · intro hfind
    simp [classicUpdate, hid, hfind]
  · intro person hfind hval hmem
    have hmem' : "hamburger" ∈ person.favoriteFoods := by
      simpa using hmem
    have hstep : classicUpdate id db =
        (⟨200, Body.user person⟩,
         db.map (fun v => if v.id == id then person else v)) := by
      simp [classicUpdate, hid, hfind, hmem', hval]
    rw [hstep, map_replace_self db id person hnd hfind]
  · intro person hfind hval hmem
    have hmem' : "hamburger" ∉ person.favoriteFoods := by
      simpa using hmem
    have hval' : validateStored
        { person with favoriteFoods := person.favoriteFoods ++ ["hamburger"] } =
        Except.ok () := hval
    simp [classicUpdate, hid, hfind, hmem', hval']

/-- Witness for C4: a record already listing `"hamburger"` is returned
unchanged and the store is untouched. -/
theorem classicUpdate_spec_witness :
    classicUpdate "0123456789ab"
      [⟨"0123456789ab", "Mary", some 30, ["hamburger"]⟩] =
      (⟨200, Body.user ⟨"0123456789ab", "Mary", some 30, ["hamburger"]⟩⟩,
       [⟨"0123456789ab", "Mary", some 30, ["hamburger"]⟩]) :=
  (classicUpdate_spec "0123456789ab"
    [⟨"0123456789ab", "Mary", some 30, ["hamburger"]⟩]
    (by decide) (by decide)).2.1
    ⟨"0123456789ab", "Mary", some 30, ["hamburger"]⟩ rfl rfl rfl

/-- Claim C7: every id-taking endpoint (`PUT /users/:id`,
`DELETE /users/:id`, `GET /users/find-by-id/:id`,
`PUT /users/classic-update/:id`, `DELETE /users/find-by-id-and-remove/:id`)
answers a malformed identifier with the client error 400, never 500. -/
theorem malformed_id_client_error (id : String) (upd : UserUpdate) (db : Store)
    (hbad : isValidObjectId id = false) :
    (updateUser id upd db).1.status = 400 ∧
    (deleteUser id db).1.status = 400 ∧
    (findById id db).1.status = 400 ∧
    (classicUpdate id db).1.status = 400 ∧
    (findByIdAndRemove id db).1.status = 400 := by
  refine ⟨?_, ?_, ?_, ?_, ?_⟩ <;>
    simp [updateUser, deleteUser, findById, classicUpdate, findByIdAndRemove, hbad]

/-- Witness for C7 at the malformed id `"xyz"`. -/
theorem malformed_id_client_error_witness :
    (updateUser "xyz" ⟨none, none, none⟩ []).1.status = 400 ∧
    (deleteUser "xyz" []).1.status = 400 ∧
    (findById "xyz" []).1.status = 400 ∧
    (classicUpdate "xyz" []).1.status = 400 ∧
    (findByIdAndRemove "xyz" []).1.status = 400 :=
  malformed_id_client_error "xyz" ⟨none, none, none⟩ [] (by decide)

/-- Claim C9: when a document with the requested id exists (and the id is
well-formed), both `DELETE /users/:id` and
`DELETE /users/find-by-id-and-remove/:id` answer 200 with the deleted
record in the response body. -/
theorem delete_success_returns_record (id : String) (db : Store) (u : StoredUser)
    (hid : isValidObjectId id = true)
    (hfind : db.find? (fun v => v.id == id) = some u) :
    (deleteUser id db).1 = ⟨200, Body.msgUser "User deleted successfully" u⟩ ∧
    (findByIdAndRemove id db).1 =
      ⟨200, Body.msgUser "User successfully removed" u⟩ := by
  constructor <;> simp [deleteUser, findByIdAndRemove, hid, hfind]

/-- Witness for C9 on a one-element store. -/
theorem delete_success_returns_record_witness :
    (deleteUser "0123456789ab" [⟨"0123456789ab", "Mary", some 30, []⟩]).1 =
      ⟨200, Body.msgUser "User deleted successfully"
        ⟨"0123456789ab", "Mary", some 30, []⟩⟩ ∧
    (findByIdAndRemove "0123456789ab" [⟨"0123456789ab", "Mary", some 30, []⟩]).1 =
      ⟨200, Body.msgUser "User successfully removed"
        ⟨"0123456789ab", "Mary", some 30, []⟩⟩ :=
  delete_success_returns_record "0123456789ab"
    [⟨"0123456789ab", "Mary", some 30, []⟩]
    ⟨"0123456789ab", "Mary", some 30, []⟩ (by decide) (by decide)

/-- Counterexample to claim C5 as stated: `PUT /users/:id` with a valid
id and a negative `age` in the body is a validation failure, but the
handler answers 500 (its catch only special-cases `CastError`), not the
claimed 400. -/
theorem update_validation_failure_counterexample :
    (updateUser "0123456789ab" ⟨none, some (-1), none⟩ []).1.status = 500 ∧
    (updateUser "0123456789ab" ⟨none, some (-1), none⟩ []).1.status ≠ 400 := by
  constructor <;> decide

/-- Claim C5 (amended): the create handlers (`POST /users/`,
`POST /users/create-one`, `POST /users/create-many`) answer a validation
failure with 400 carrying the underlying validation message, while
`PUT /users/:id` — though it runs validators on the partial fields —
maps a validation failure to 500 with a generic message (only a
malformed id gives 400 there). -/
theorem validation_error_statuses (newId : String) (body : UserInput)
    (db : Store) (m : String) (hval : validateUser body = Except.error m)
    (id : String) (upd : UserUpdate) (m2 : String)
    (hid : isValidObjectId id = true)
    (hupd : validateUpdate upd = Except.error m2)
    (l : List UserInput) (newIds : List String) (m3 : String)
    (hne : l ≠ []) (hfe : firstError l = some m3) :
    (createUser newId body db).1 = ⟨400, Body.msg m⟩ ∧
    (createOne newId body db).1 = ⟨400, Body.msg m⟩ ∧
    (createMany (some l) newIds db).1 = ⟨400, Body.msg m3⟩ ∧
    (updateUser id upd db).1 = ⟨500, Body.msg "Server error"⟩ := by
  refine ⟨?_, ?_, ?_, ?_⟩ <;>
    simp [createUser, createOne, createMany, updateUser, hval, hid, hupd, hne, hfe]

/-- Witness for the amended C5: missing `name` on create (single and
bulk), negative `age` on update. -/
theorem validation_error_statuses_witness :
    (createUser "0123456789abcdef01234567" ⟨none, none, []⟩ []).1 =
      ⟨400, Body.msg "User validation failed: name: Path name is required."⟩ ∧
    (createOne "0123456789abcdef01234567" ⟨none, none, []⟩ []).1 =
      ⟨400, Body.msg "User validation failed: name: Path name is required."⟩ ∧
    (createMany (some [⟨none, some 25, ["Sushi"]⟩]) ["0123456789ab"] []).1 =
      ⟨400, Body.msg "User validation failed: name: Path name is required."⟩ ∧
    (updateUser "0123456789ab" ⟨none, some (-1), none⟩ []).1 =
      ⟨500, Body.msg "Server error"⟩ :=
  validation_error_statuses "0123456789abcdef01234567" ⟨none, none, []⟩ []
    "User validation failed: name: Path name is required." rfl
    "0123456789ab" ⟨none, some (-1), none⟩
    "Validation failed: age: Path age is less than minimum allowed value (0)."
    (by decide) (by rfl)
    [⟨none, some 25, ["Sushi"]⟩] ["0123456789ab"]
    "User validation failed: name: Path name is required."
    (by decide) (by rfl)

/-- Counterexample to claim C6 as stated: a non-empty array containing a
record with no `name` does not yield 201; `User.create` rejects and the
handler answers 400. -/
theorem createMany_nonempty_not_always_201 :
    (createMany (some [⟨none, none, []⟩]) ["0123456789ab"] []).1.status = 400 ∧
    (createMany (some [⟨none, none, []⟩]) ["0123456789ab"] []).1.status ≠ 201 := by
  constructor <;> decide

/-- All elements valid means the bulk create finds no error. -/
theorem firstError_eq_none (l : List UserInput)
    (h : ∀ b ∈ l, validateUser b = Except.ok ()) : firstError l = none := by
  induction l with
  | nil => rfl
  | cons b bs ih =>
    simp only [firstError, h b (List.mem_cons_self b bs)]
    exact ih (fun c hc => h c (List.mem_cons_of_mem b hc))

/-- Claim C6 (amended): `POST /users/create-many` rejects a non-array or
empty-array body with 400 and inserts nothing; a non-empty array all of
whose elements pass schema validation is bulk-inserted with 201 and the
created records (an element failing validation instead gives 400, per
the counterexample). -/
theorem createMany_spec (newIds : List String) (db : Store)
    (l : List UserInput) (hne : l ≠ [])
    (hvalid : ∀ b ∈ l, validateUser b = Except.ok ()) :
    createMany none newIds db =
      (⟨400, Body.msg "Request body must be a non-empty array of user objects."⟩,
       db) ∧
    createMany (some []) newIds db =
      (⟨400, Body.msg "Request body must be a non-empty array of user objects."⟩,
       db) ∧
    createMany (some l) newIds db =
      (⟨201, Body.users ((l.zip newIds).map (fun bi => mkStored bi.2 bi.1))⟩,
       db ++ (l.zip newIds).map (fun bi => mkStored bi.2 bi.1)) := by
  refine ⟨rfl, rfl, ?_⟩
  have hfe : firstError l = none := firstError_eq_none l hvalid
  simp [createMany, hfe, hne]

/-- Witness for the amended C6 with a one-element valid payload. -/
theorem createMany_spec_witness :
    createMany none ["0123456789ab"] [] =
      (⟨400, Body.msg "Request body must be a non-empty array of user objects."⟩,
       []) ∧
    createMany (some []) ["0123456789ab"] [] =
      (⟨400, Body.msg "Request body must be a non-empty array of user objects."⟩,
       []) ∧
    createMany (some [⟨some "Bob", some 25, ["Sushi"]⟩]) ["0123456789ab"] [] =
      (⟨201, Body.users
          (([(⟨some "Bob", some 25, ["Sushi"]⟩ : UserInput)].zip ["0123456789ab"]).map
            (fun bi => mkStored bi.2 bi.1))⟩,
       [] ++ ([(⟨some "Bob", some 25, ["Sushi"]⟩ : UserInput)].zip ["0123456789ab"]).map
         (fun bi => mkStored bi.2 bi.1)) :=
  createMany_spec ["0123456789ab"] [] [⟨some "Bob", some 25, ["Sushi"]⟩]
    (by decide)
    (by
      intro b hb
      rw [List.mem_singleton] at hb
      subst hb
      rfl)

/-- Claim C8: `DELETE /users/delete-many-by-name/:name` removes every
record with the given name; with n > 0 matches it answers 200 reporting
count n and a subsequent `GET /users/find-by-name/:name` returns the
empty list; with 0 matches it answers 404. -/
theorem deleteManyByName_spec (name : String) (db : Store) :
    (0 < db.countP (fun u => u.name == name) →
      (deleteManyByName name db).1 =
        ⟨200, Body.msgCount
          (toString (db.countP (fun u => u.name == name)) ++
            " user(s) with name \"" ++ name ++ "\" successfully removed.")
          (db.countP (fun u => u.name == name))⟩ ∧
      (findByName name (deleteManyByName name db).2).1 = ⟨200, Body.users []⟩) ∧
    (db.countP (fun u => u.name == name) = 0 →
      (deleteManyByName name db).1.status = 404) := by
  constructor
  · intro hpos
    have hne : ¬ db.countP (fun u => u.name == name) = 0 := by omega
    constructor
    · simp [deleteManyByName, hne]
    · have hstore : (deleteManyByName name db).2 =
          db.filter (fun u => !(u.name == name)) := by
        simp only [deleteManyByName]
        split <;> rfl
      rw [hstore]
      simp [findByName, List.filter_filter]
  · intro hzero
    simp [deleteManyByName, hzero]

/-- Witness for C8 on a store of three Marys. -/
theorem deleteManyByName_spec_witness :
    (deleteManyByName "Mary"
      [⟨"0123456789ab", "Mary", some 30, []⟩,
       ⟨"0123456789ac", "Mary", some 31, []⟩,
       ⟨"0123456789ad", "Mary", some 32, []⟩]).1 =
      ⟨200, Body.msgCount "3 user(s) with name \"Mary\" successfully removed." 3⟩ ∧
    (findByName "Mary"
      (deleteManyByName "Mary"
        [⟨"0123456789ab", "Mary", some 30, []⟩,
         ⟨"0123456789ac", "Mary", some 31, []⟩,
         ⟨"0123456789ad", "Mary", some 32, []⟩]).2).1 = ⟨200, Body.users []⟩ :=
  (deleteManyByName_spec "Mary"
    [⟨"0123456789ab", "Mary", some 30, []⟩,
     ⟨"0123456789ac", "Mary", some 31, []⟩,
     ⟨"0123456789ad", "Mary", some 32, []⟩]).1 (by decide)

/-- Claim C10: every GET handler (list all, find-by-name, find-one-food,
find-by-id, search-burritos) leaves the stored collection unchanged,
whatever the request and outcome. -/
theorem get_handlers_preserve_store (db : Store) (name food id : String) :
    (getAllUsers db).2 = db ∧
    (findByName name db).2 = db ∧
    (findOneFood food db).2 = db ∧
    (findById id db).2 = db ∧
    (searchBurritos db).2 = db := by
  refine ⟨rfl, rfl, ?_, ?_, rfl⟩
  · unfold findOneFood
    split <;> rfl
  · unfold findById
    split
    · split <;> rfl
    · rfl

end MongooseUsers
